import Mathlib

/-
Verification development for the cross-account/region resolution and
delegated-session management subsystem of the aws-automation-tamer
repository.

Shallow embedding of:
  - src/libs/aws_session_manager.py (AssumeRoleSessionManager.assume_role
    and its validation helpers), and
  - src/ec2/find.py (find_instance_by_name, find_instance_with_session).

Modelling conventions:
  - The STS credential exchange (sts_client.assume_role) is an oracle
    `ExchangeRequest → ExchangeOutcome`; each invocation is counted in the
    `exchangeCalls` field of the result so that "number of network
    exchanges" is a provable quantity.
  - The nondeterministic part of the generated session name (UTC timestamp
    plus short uuid4 suffix) is abstracted as a `nonce` string parameter.
  - The session cache (a Python dict from string keys to boto3.Session) is
    an association list; each stored entry is additionally annotated with a
    ghost creation time `Nat` (the source stores only the session object and
    records no expiry information — the ghost time lets us state claims
    about credential-validity windows).
  - The account-id regex (backslash-d twelve times between ^ and $,
    compiled over str) follows Python re semantics: backslash-d matches any
    Unicode decimal digit (category Nd; the ranges below are generated from
    the CPython 3.11 interpreter's own match behaviour), and $ matches at
    the end of the string or just before one trailing newline. `str.isalpha`
    (used only on the last character of an availability zone) is modelled
    as ASCII `Char.isAlpha`; the distinction is not load-bearing for any
    theorem here, as the region-normalization case split is identical under
    either predicate.
  - The EC2 backend visible to the resolver is a function from
    (account_id, region) to an outcome: role assumption fails
    (AssumeRoleError), an unexpected exception occurs, describe_instances
    raises a ClientError with a code, or raw reservation data is returned.
    The describe_instances name-tag/state filters are applied to the raw
    data, mirroring the server-side filter semantics the code relies on.
-/

set_option autoImplicit false
set_option maxHeartbeats 1000000

namespace Aws

/-- Temporary credentials returned by the STS exchange
(`response['Credentials']` in assume_role). -/
structure Credentials where
  accessKeyId : String
  secretAccessKey : String
  sessionToken : String
  deriving DecidableEq

/-- Model of the boto3.Session built from assumed-role credentials
(aws_session_manager.py lines 276-280). -/
structure Session where
  aws_access_key_id : String
  aws_secret_access_key : String
  aws_session_token : String
  deriving DecidableEq

/-- Model of the AssumeRoleError exception (aws_session_manager.py lines
29-62): a typed error carrying the offending account/role/region context
and, when present, the original error. -/
structure AssumeRoleError where
  message : String
  account_id : Option String := none
  role_name : Option String := none
  region : Option String := none
  original_error : Option String := none
  deriving DecidableEq

/-- Outcome of one invocation of the underlying credential exchange
(`sts_client.assume_role(**assume_role_params)`): success with credentials,
a botocore ClientError with a code and message, a NoCredentialsError, or
any other exception. -/
inductive ExchangeOutcome where
  | ok (credentials : Credentials)
  | clientError (code message : String)
  | noCredentials
  | otherError (message : String)
  deriving DecidableEq

/-- Parameters of one credential-exchange request, as assembled by
assume_role (aws_session_manager.py lines 249-267): role ARN, generated
session name, configured duration, optional external id, and the regional
endpoint the STS client is bound to. -/
structure ExchangeRequest where
  roleArn : String
  roleSessionName : String
  durationSeconds : Nat
  externalId : Option String
  region_name : String
  endpointUrl : String
  deriving DecidableEq

/-- Construction-time configuration of AssumeRoleSessionManager
(aws_session_manager.py lines 84-104). The Lean field `session_name_pre`
models the Python attribute holding the session-name prefix string. -/
structure AssumeRoleSessionManager where
  default_role_name : String := "aws-automation-tamer-admin"
  session_duration : Nat := 3600
  session_name_pre : String := "AwsAutomationTamer"
  external_id : Option String := none
  enable_caching : Bool := false
  deriving DecidableEq

/-- The session cache `self._session_cache`: an association list from the
cache-key string to the cached session. The `Nat` component of each entry
is a ghost annotation recording the clock value at which the exchange that
created the entry happened; the source stores only the session and keeps no
expiry data, and no code path ever reads this ghost component. -/
abbrev Cache := List (String × (Session × Nat))

/-- The codepoint ranges matched by Python's backslash-d over str: the
Unicode decimal digits (general category Nd), as matched by the CPython
3.11 regex engine. -/
def ndRanges : List (Nat × Nat) :=
  [(0x30, 0x39), (0x660, 0x669), (0x6F0, 0x6F9), (0x7C0, 0x7C9),
   (0x966, 0x96F), (0x9E6, 0x9EF), (0xA66, 0xA6F), (0xAE6, 0xAEF),
   (0xB66, 0xB6F), (0xBE6, 0xBEF), (0xC66, 0xC6F), (0xCE6, 0xCEF),
   (0xD66, 0xD6F), (0xDE6, 0xDEF), (0xE50, 0xE59), (0xED0, 0xED9),
   (0xF20, 0xF29), (0x1040, 0x1049), (0x1090, 0x1099), (0x17E0, 0x17E9),
   (0x1810, 0x1819), (0x1946, 0x194F), (0x19D0, 0x19D9), (0x1A80, 0x1A89),
   (0x1A90, 0x1A99), (0x1B50, 0x1B59), (0x1BB0, 0x1BB9), (0x1C40, 0x1C49),
   (0x1C50, 0x1C59), (0xA620, 0xA629), (0xA8D0, 0xA8D9), (0xA900, 0xA909),
   (0xA9D0, 0xA9D9), (0xA9F0, 0xA9F9), (0xAA50, 0xAA59), (0xABF0, 0xABF9),
   (0xFF10, 0xFF19), (0x104A0, 0x104A9), (0x10D30, 0x10D39), (0x11066, 0x1106F),
   (0x110F0, 0x110F9), (0x11136, 0x1113F), (0x111D0, 0x111D9), (0x112F0, 0x112F9),
   (0x11450, 0x11459), (0x114D0, 0x114D9), (0x11650, 0x11659), (0x116C0, 0x116C9),
   (0x11730, 0x11739), (0x118E0, 0x118E9), (0x11950, 0x11959), (0x11C50, 0x11C59),
   (0x11D50, 0x11D59), (0x11DA0, 0x11DA9), (0x16A60, 0x16A69), (0x16AC0, 0x16AC9),
   (0x16B50, 0x16B59), (0x1D7CE, 0x1D7FF), (0x1E140, 0x1E149), (0x1E2F0, 0x1E2F9),
   (0x1E950, 0x1E959), (0x1FBF0, 0x1FBF9)]

/-- Python's backslash-d over str: membership in a Unicode Nd range. -/
def isPythonDigit (c : Char) : Bool :=
  ndRanges.any (fun p => p.1 ≤ c.toNat && c.toNat ≤ p.2)

/-- Model of ACCOUNT_ID_PATTERN.match (aws_session_manager.py line 74):
the compiled pattern is backslash-d twelve times between ^ and $, so a
string matches exactly when it consists of 12 Unicode decimal digits
followed by nothing or by one final newline (Python's $ matches at the end
of the string or just before a trailing newline). -/
def accountIdPattern (s : String) : Bool :=
  (s.data.take 12).length == 12 && (s.data.take 12).all isPythonDigit &&
    (s.data.drop 12 == [] || s.data.drop 12 == ['\n'])

/-- VALID_REGIONS (aws_session_manager.py lines 77-82). Membership is only
ever used for a log warning, never for control flow. -/
def VALID_REGIONS : List String :=
  ["us-east-1", "us-east-2", "us-west-1", "us-west-2",
   "eu-west-1", "eu-west-2", "eu-west-3", "eu-central-1",
   "ap-southeast-1", "ap-southeast-2", "ap-northeast-1", "ap-northeast-2",
   "ca-central-1", "sa-east-1", "ap-south-1"]

/-- Model of _validate_inputs (aws_session_manager.py lines 126-156), which
raises ValueError with a message on the first failing check; `none` means
all checks pass. In assume_role the role argument is always the effective
role name (a concrete string), so the `role_name is not None` guard of the
source is always taken here. The unknown-region branch only logs a warning
and is behaviourally a no-op. -/
def validate_inputs (account_id region_name role_name : String) : Option String :=
  if account_id = "" then
    some s!"account_id must be a non-empty string, got: {account_id}"
  else if !(accountIdPattern account_id) then
    some s!"account_id must be a 12-digit string, got: {account_id}"
  else if region_name = "" then
    some s!"region_name must be a non-empty string, got: {region_name}"
  else if role_name = "" ∨ role_name.length > 64 then
    some s!"role_name must be non-empty and max 64 chars, got: {role_name}"
  else
    none

/-- Model of _generate_session_name (aws_session_manager.py lines 158-167):
the configured prefix followed by a timestamp-and-uuid suffix, the latter
abstracted as the `nonce` parameter. -/
def generate_session_name (mgr : AssumeRoleSessionManager) (nonce : String) : String :=
  s!"{mgr.session_name_pre}-{nonce}"

/-- Model of _get_sts_endpoint_url (aws_session_manager.py lines 169-179). -/
def get_sts_endpoint_url (region_name : String) : String :=
  s!"https://sts.{region_name}.amazonaws.com"

/-- Model of _build_role_arn (aws_session_manager.py lines 181-192). -/
def build_role_arn (account_id role_name : String) : String :=
  s!"arn:aws:iam::{account_id}:role/{role_name}"

/-- Model of _get_cache_key (aws_session_manager.py lines 194-206). -/
def get_cache_key (account_id region_name role_name : String) : String :=
  s!"{account_id}:{region_name}:{role_name}"

/-- Python `role_name or self.default_role_name` (aws_session_manager.py
line 228): None and the empty string are falsy, so both select the
manager's default role name. -/
def effectiveRoleName (role_name : Option String) (default_role_name : String) : String :=
  match role_name with
  | none => default_role_name
  | some s => if s = "" then default_role_name else s

/-- Python `if self.external_id:` (aws_session_manager.py line 266): the
ExternalId parameter is added to the exchange only when the configured
external id is truthy (present and non-empty). -/
def effectiveExternalId (external_id : Option String) : Option String :=
  match external_id with
  | none => none
  | some s => if s = "" then none else some s

/-- Python dict assignment `self._session_cache[cache_key] = session`:
sets the key, replacing any previous binding. -/
def cacheInsert (k : String) (v : Session × Nat) (c : Cache) : Cache :=
  (k, v) :: c.filter (fun p => !(p.1 == k))

/-- Result of one assume_role call: the returned session or raised
AssumeRoleError, the cache state after the call, and how many times the
underlying credential exchange was invoked during the call. -/
structure AssumeResult where
  result : Except AssumeRoleError Session
  cache : Cache
  exchangeCalls : Nat

/-- How assume_role handles the outcome of the credential exchange
(aws_session_manager.py lines 272-324): wrap returned credentials into a
session (caching it when enabled), or translate the raised exception into
an AssumeRoleError; the cache is touched only on the success path. -/
def wrapExchangeOutcome (mgr : AssumeRoleSessionManager) (now : Nat) (cache : Cache)
    (account_id region_name effective_role_name : String) : ExchangeOutcome → AssumeResult
  | .ok credentials =>
      let session : Session :=
        { aws_access_key_id := credentials.accessKeyId
          aws_secret_access_key := credentials.secretAccessKey
          aws_session_token := credentials.sessionToken }
      if mgr.enable_caching then
        { result := .ok session
          cache := cacheInsert (get_cache_key account_id region_name effective_role_name)
            (session, now) cache
          exchangeCalls := 1 }
      else
        { result := .ok session, cache := cache, exchangeCalls := 1 }
  | .clientError code message =>
      { result := .error
          { message := s!"AWS API error during role assumption: {code} - {message}"
            account_id := some account_id
            role_name := some effective_role_name
            region := some region_name
            original_error := some message }
        cache := cache
        exchangeCalls := 1 }
  | .noCredentials =>
      { result := .error
          { message := "No AWS credentials available. Please configure your AWS credentials."
            account_id := some account_id
            role_name := some effective_role_name
            region := some region_name
            original_error := some "NoCredentialsError" }
        cache := cache
        exchangeCalls := 1 }
  | .otherError message =>
      { result := .error
          { message := s!"Unexpected error during role assumption: {message}"
            account_id := some account_id
            role_name := some effective_role_name
            region := some region_name
            original_error := some message }
        cache := cache
        exchangeCalls := 1 }

/-- The try-block of assume_role (aws_session_manager.py lines 248-324):
build the request from the role ARN, the generated session name, the
configured duration and optional external id, bound to the regional STS
endpoint; invoke the exchange once and handle its outcome. -/
def assume_role_exchange (mgr : AssumeRoleSessionManager)
    (exchange : ExchangeRequest → ExchangeOutcome) (nonce : String) (now : Nat)
    (cache : Cache) (account_id region_name effective_role_name : String) : AssumeResult :=
  let req : ExchangeRequest :=
    { roleArn := build_role_arn account_id effective_role_name
      roleSessionName := generate_session_name mgr nonce
      durationSeconds := mgr.session_duration
      externalId := effectiveExternalId mgr.external_id
      region_name := region_name
      endpointUrl := get_sts_endpoint_url region_name }
  wrapExchangeOutcome mgr now cache account_id region_name effective_role_name (exchange req)

/-- Model of AssumeRoleSessionManager.assume_role (aws_session_manager.py
lines 208-324): substitute the default role name for a falsy role_name
argument, validate the inputs (a ValueError is wrapped into an
AssumeRoleError carrying account/role/region context and nothing else
happens), consult the cache when caching is enabled (a present entry is
returned as-is, with no expiry check), and otherwise perform the
credential exchange. -/
def assume_role (mgr : AssumeRoleSessionManager)
    (exchange : ExchangeRequest → ExchangeOutcome) (nonce : String) (now : Nat)
    (cache : Cache) (account_id region_name : String)
    (role_name : Option String) : AssumeResult :=
  let effective_role_name := effectiveRoleName role_name mgr.default_role_name
  match validate_inputs account_id region_name effective_role_name with
  | some e =>
      { result := .error
          { message := s!"Invalid input parameters: {e}"
            account_id := some account_id
            role_name := some effective_role_name
            region := some region_name }
        cache := cache
        exchangeCalls := 0 }
  | none =>
      if mgr.enable_caching then
        match List.lookup (get_cache_key account_id region_name effective_role_name) cache with
        | some entry => { result := .ok entry.1, cache := cache, exchangeCalls := 0 }
        | none =>
            assume_role_exchange mgr exchange nonce now cache
              account_id region_name effective_role_name
      else
        assume_role_exchange mgr exchange nonce now cache
          account_id region_name effective_role_name

/-- True exactly when an assume_role result is a raised AssumeRoleError. -/
def isError : Except AssumeRoleError Session → Bool
  | .error _ => true
  | .ok _ => false

/-- The session of a successful assume_role result, if any. -/
def sessionOf : Except AssumeRoleError Session → Option Session
  | .ok s => some s
  | .error _ => none

/-- The (account_id, role_name, region) context carried by a raised
AssumeRoleError, if the result is an error. -/
def errorContext : Except AssumeRoleError Session →
    Option (Option String × Option String × Option String)
  | .error e => some (e.account_id, e.role_name, e.region)
  | .ok _ => none

/-- An EC2 instance as seen by the resolver (find.py): its id, its tag set
as key/value pairs, its lifecycle state (`State.Name`), and the string
`instance.get('Placement', \x7b\x7d).get('AvailabilityZone', '')` — the
empty string means the instance carries no availability-zone data. -/
structure Instance where
  instance_id : String
  tags : List (String × String)
  state : String
  availability_zone : String
  deriving DecidableEq

/-- What happens at one (account_id, region) cell of the search space:
assume_role raises AssumeRoleError, some other exception is raised,
describe_instances raises a ClientError carrying an error code, or the
query succeeds and returns raw reservation data (a list of reservations,
each a list of instances). -/
inductive RegionOutcome where
  | assumeFailure
  | unexpectedFailure
  | queryFailure (code : String)
  | data (reservations : List (List Instance))
  deriving DecidableEq

/-- The backend state the resolver scans: the behaviour of every
(account_id, region) cell. -/
abbrev Backend := String → String → RegionOutcome

/-- The instance-state-name filter values of the describe_instances call
(find.py lines 62-64). -/
def activeStates : List String :=
  ["pending", "running", "shutting-down", "stopping", "stopped"]

/-- The describe_instances filter (find.py lines 56-65): the tag named
`Name` equals the target server name and the lifecycle state is one of the
five active states. -/
def matchesFilters (server_name : String) (inst : Instance) : Bool :=
  inst.tags.contains ("Name", server_name) && activeStates.contains inst.state

/-- The instances of the filtered describe_instances response, in the
nested iteration order of find.py lines 69-70 (reservations outer,
instances inner): the server-side filters applied to each reservation and
the reservations concatenated. -/
def describeMatches (server_name : String) (reservations : List (List Instance)) : List Instance :=
  (reservations.map (fun res => res.filter (matchesFilters server_name))).flatten

/-- Region normalization of find.py lines 72-80: when the instance carries
a non-empty availability zone whose last character is alphabetic, the zone
with that final character dropped; otherwise the region used for the
query. -/
def normalizeRegion (region : String) (inst : Instance) : String :=
  if inst.availability_zone ≠ "" then
    if inst.availability_zone.back.isAlpha then inst.availability_zone.dropRight 1
    else region
  else region

/-- Result of the per-account region loop of find_instance_by_name: a
match was found and returned, an exception escaped the region loop and was
caught by the per-account handlers (AssumeRoleError or any other
exception, find.py lines 89-94), or all regions were searched without a
match. -/
inductive RegionScanResult where
  | found (account_name region : String) (inst : Instance)
  | aborted
  | exhausted
  deriving DecidableEq

/-- The inner region loop of find_instance_by_name (find.py lines 46-87):
per region, assume the role and query; a ClientError from the query is
caught and the loop continues with the next region (the error code only
selects whether a warning is logged); an AssumeRoleError or unexpected
exception escapes the loop to the per-account handlers; a non-empty
filtered response returns its first instance with the normalized region. -/
def scanRegions (backend : Backend) (server_name account_name account_id : String) :
    List String → RegionScanResult
  | [] => .exhausted
  | region :: rest =>
    match backend account_id region with
    | .assumeFailure => .aborted
    | .unexpectedFailure => .aborted
    | .queryFailure _ => scanRegions backend server_name account_name account_id rest
    | .data reservations =>
      match (describeMatches server_name reservations).head? with
      | some inst => .found account_name (normalizeRegion region inst) inst
      | none => scanRegions backend server_name account_name account_id rest

/-- The outer account loop of find_instance_by_name (find.py lines 41-94):
a found match is returned; an aborted region scan (caught AssumeRoleError
or unexpected exception) and an exhausted one both continue with the next
account. -/
def findLoop (backend : Backend) (server_name : String) (valid_regions : List String) :
    List (String × String) → Option (String × String × Instance)
  | [] => none
  | (account_name, account_id) :: rest =>
    match scanRegions backend server_name account_name account_id valid_regions with
    | .found n r i => some (n, r, i)
    | .aborted => findLoop backend server_name valid_regions rest
    | .exhausted => findLoop backend server_name valid_regions rest

/-- Model of find_instance_by_name (find.py lines 18-97): scan the
configured accounts over the configured regions and return the first
match as (account_name, normalized region, instance), or none. -/
def find_instance_by_name (server_name : String) (accounts : List (String × String))
    (valid_regions : List String) (backend : Backend) :
    Option (String × String × Instance) :=
  findLoop backend server_name valid_regions accounts

/-- The EC2 client handle `regional_session.client('ec2')` created for one
account and query region (find.py line 136), identified by the pair it is
scoped to. -/
structure Ec2Client where
  account_id : String
  region : String
  deriving DecidableEq

/-- Region-loop result of find_instance_with_session: as RegionScanResult
but a found match additionally carries the EC2 client handle used for the
query. -/
inductive RegionScanResultWs where
  | found (account_name region : String) (inst : Instance) (client : Ec2Client)
  | aborted
  | exhausted
  deriving DecidableEq

/-- The inner region loop of find_instance_with_session (find.py lines
130-171), a line-for-line duplicate of the plain scan that also keeps the
EC2 client handle of the query. -/
def scanRegionsWs (backend : Backend) (server_name account_name account_id : String) :
    List String → RegionScanResultWs
  | [] => .exhausted
  | region :: rest =>
    match backend account_id region with
    | .assumeFailure => .aborted
    | .unexpectedFailure => .aborted
    | .queryFailure _ => scanRegionsWs backend server_name account_name account_id rest
    | .data reservations =>
      match (describeMatches server_name reservations).head? with
      | some inst =>
          .found account_name (normalizeRegion region inst) inst
            { account_id := account_id, region := region }
      | none => scanRegionsWs backend server_name account_name account_id rest

/-- The outer account loop of find_instance_with_session (find.py lines
125-178). -/
def findLoopWs (backend : Backend) (server_name : String) (valid_regions : List String) :
    List (String × String) → Option (String × String × Instance × Ec2Client)
  | [] => none
  | (account_name, account_id) :: rest =>
    match scanRegionsWs backend server_name account_name account_id valid_regions with
    | .found n r i c => some (n, r, i, c)
    | .aborted => findLoopWs backend server_name valid_regions rest
    | .exhausted => findLoopWs backend server_name valid_regions rest

/-- Model of find_instance_with_session (find.py lines 100-181): the same
search as find_instance_by_name, returning the EC2 client handle alongside
the match. -/
def find_instance_with_session (server_name : String) (accounts : List (String × String))
    (valid_regions : List String) (backend : Backend) :
    Option (String × String × Instance × Ec2Client) :=
  findLoopWs backend server_name valid_regions accounts

/-- Forgets the client handle of a with-session region-scan result. -/
def stripClient : RegionScanResultWs → RegionScanResult
  | .found n r i _ => .found n r i
  | .aborted => .aborted
  | .exhausted => .exhausted

/-- Reading one (account_id, region) cell as an explicit state operation:
the backend state is consumed and returned, making any mutation of the
backend by the resolver expressible (and provably absent). -/
def readRegion (account_id region : String) (st : Backend) : RegionOutcome × Backend :=
  (st account_id region, st)

/-- State-passing form of the inner region loop of find_instance_by_name:
identical control flow, with the backend state threaded through every
backend operation. -/
def scanRegionsSt (server_name account_name account_id : String) :
    List String → Backend → RegionScanResult × Backend
  | [], st => (.exhausted, st)
  | region :: rest, st =>
    let out := readRegion account_id region st
    match out.1 with
    | .assumeFailure => (.aborted, out.2)
    | .unexpectedFailure => (.aborted, out.2)
    | .queryFailure _ => scanRegionsSt server_name account_name account_id rest out.2
    | .data reservations =>
      match (describeMatches server_name reservations).head? with
      | some inst => (.found account_name (normalizeRegion region inst) inst, out.2)
      | none => scanRegionsSt server_name account_name account_id rest out.2

/-- State-passing form of the outer account loop of
find_instance_by_name. -/
def findLoopSt (server_name : String) (valid_regions : List String) :
    List (String × String) → Backend → (Option (String × String × Instance)) × Backend
  | [], st => (none, st)
  | (account_name, account_id) :: rest, st =>
    let scanned := scanRegionsSt server_name account_name account_id valid_regions st
    match scanned.1 with
    | .found n r i => (some (n, r, i), scanned.2)
    | .aborted => findLoopSt server_name valid_regions rest scanned.2
    | .exhausted => findLoopSt server_name valid_regions rest scanned.2

/-- State-passing form of find_instance_by_name: returns the search result
together with the backend state after the call. -/
def find_instance_by_name_st (server_name : String) (accounts : List (String × String))
    (valid_regions : List String) (st : Backend) :
    (Option (String × String × Instance)) × Backend :=
  findLoopSt server_name valid_regions accounts st

/-- A manager with the constructor's default arguments, as built by
`AssumeRoleSessionManager()` in find.py. -/
def mgrDefault : AssumeRoleSessionManager := {}

/-- A manager with the constructor's default arguments except caching
enabled. -/
def mgrC : AssumeRoleSessionManager := { enable_caching := true }

/-- An exchange backend that denies every request with an AccessDenied
ClientError. -/
def exchangeDeny : ExchangeRequest → ExchangeOutcome :=
  fun _ => .clientError "AccessDenied" "denied"

/-- An exchange backend that grants every request with fixed temporary
credentials. -/
def exchangeOk : ExchangeRequest → ExchangeOutcome :=
  fun _ => .ok { accessKeyId := "AK", secretAccessKey := "SK", sessionToken := "TK" }

/-- The session that exchangeOk's credentials wrap into. -/
def sessionOk : Session :=
  { aws_access_key_id := "AK", aws_secret_access_key := "SK", aws_session_token := "TK" }

/-- A cached session used in the expiry examples. -/
def sessionC4 : Session :=
  { aws_access_key_id := "AKIA1", aws_secret_access_key := "sk1", aws_session_token := "tok1" }

/-- A cache holding sessionC4 for account 111111111111, region us-east-1
and the default role, created at clock value 0. -/
def cacheC4 : Cache :=
  [(get_cache_key "111111111111" "us-east-1" "aws-automation-tamer-admin", (sessionC4, 0))]

/-- A stopped instance named web-01 in availability zone eu-west-1b. -/
def instWeb : Instance :=
  { instance_id := "i-0aaa", tags := [("Name", "web-01")], state := "stopped",
    availability_zone := "eu-west-1b" }

/-- A terminated instance named web-01. -/
def instTerm : Instance :=
  { instance_id := "i-0bbb", tags := [("Name", "web-01")], state := "terminated",
    availability_zone := "eu-west-1b" }

/-- A running instance named web-01 whose availability-zone string ends in
a non-alphabetic character. -/
def instOdd : Instance :=
  { instance_id := "i-0ccc", tags := [("Name", "web-01")], state := "running",
    availability_zone := "zzz9" }

/-- A backend where instWeb lives only in account 222222222222, region
eu-west-1 (the spec's positive scenario). -/
def backendFound : Backend := fun account_id region =>
  if account_id = "222222222222" ∧ region = "eu-west-1" then .data [[instWeb]] else .data []

/-- A backend where every cell returns only the terminated instance (the
spec's terminated scenario). -/
def backendTerm : Backend := fun _ _ => .data [[instTerm]]

/-- A backend where instOdd lives in account 111111111111, region
us-east-1. -/
def backendOdd : Backend := fun account_id region =>
  if account_id = "111111111111" ∧ region = "us-east-1" then .data [[instOdd]] else .data []

/-- A backend where role assumption fails for all of account 111111111111
and the query fails with a transient error in region us-bad-1 of every
other account. -/
def backendC2 : Backend := fun account_id region =>
  if account_id = "111111111111" then .assumeFailure
  else if region = "us-bad-1" then .queryFailure "Boom"
  else .data []

/-- Every instance of a filtered describe response satisfies the query
filters. -/
theorem matches_of_mem_describeMatches {server_name : String}
    {reservations : List (List Instance)} {i : Instance}
    (h : i ∈ describeMatches server_name reservations) :
    matchesFilters server_name i = true := by
  unfold describeMatches at h
  rw [List.mem_flatten] at h
  obtain ⟨l, hl, hi⟩ := h
  rw [List.mem_map] at hl
  obtain ⟨res, _hres, rfl⟩ := hl
  exact (List.mem_filter.mp hi).2

/-- A filtered describe response is empty when no raw instance satisfies
the filters. -/
theorem describeMatches_eq_nil {server_name : String}
    {reservations : List (List Instance)}
    (h : ∀ i ∈ reservations.flatten, matchesFilters server_name i = false) :
    describeMatches server_name reservations = [] := by
  unfold describeMatches
  rw [List.flatten_eq_nil_iff]
  intro l hl
  rw [List.mem_map] at hl
  obtain ⟨res, hres, rfl⟩ := hl
  rw [List.filter_eq_nil_iff]
  intro a ha
  simp [h a (List.mem_flatten.mpr ⟨res, hres, ha⟩)]

/-- Active lifecycle states exclude the terminated state. -/
theorem ne_terminated_of_active {s : String} (h : activeStates.contains s = true) :
    s ≠ "terminated" := by
  simp [activeStates, List.contains] at h
  rcases h with h | h | h | h | h <;> subst h <;> decide

/-- An instance whose every name-tag match is terminated fails the
filters. -/
theorem matchesFilters_eq_false_of_terminated {server_name : String} {i : Instance}
    (h : i.tags.contains ("Name", server_name) = true → i.state = "terminated") :
    matchesFilters server_name i = false := by
  unfold matchesFilters
  cases hn : i.tags.contains ("Name", server_name) with
  | false => simp
  | true =>
    simp only [h hn, Bool.true_and]
    decide

/-- A found region-scan result satisfies the query filters. -/
theorem scanRegions_found_matches {backend : Backend}
    {server_name account_name account_id : String} {regions : List String}
    {n r : String} {i : Instance}
    (h : scanRegions backend server_name account_name account_id regions =
      RegionScanResult.found n r i) :
    matchesFilters server_name i = true := by
  induction regions with
  | nil => simp [scanRegions] at h
  | cons region rest ih =>
    cases hb : backend account_id region with
    | assumeFailure => simp [scanRegions, hb] at h
    | unexpectedFailure => simp [scanRegions, hb] at h
    | queryFailure code =>
      simp only [scanRegions, hb] at h
      exact ih h
    | data reservations =>
      simp only [scanRegions, hb] at h
      cases hd : (describeMatches server_name reservations).head? with
      | none =>
        simp only [hd] at h
        exact ih h
      | some inst =>
        simp only [hd] at h
        simp only [RegionScanResult.found.injEq] at h
        obtain ⟨-, -, h3⟩ := h
        have hmem : inst ∈ describeMatches server_name reservations :=
          List.mem_of_mem_head? (by simp [hd])
        rw [← h3]
        exact matches_of_mem_describeMatches hmem

/-- Case analysis of normalizeRegion: the availability zone with its last
character dropped exactly when the zone is non-empty with an alphabetic
final character, the query region otherwise. -/
theorem normalizeRegion_cases (region : String) (i : Instance) :
    (i.availability_zone ≠ "" ∧ i.availability_zone.back.isAlpha = true ∧
       normalizeRegion region i = i.availability_zone.dropRight 1) ∨
    ((i.availability_zone = "" ∨ i.availability_zone.back.isAlpha = false) ∧
       normalizeRegion region i = region) := by
  unfold normalizeRegion
  by_cases hz : i.availability_zone = ""
  · exact Or.inr ⟨Or.inl hz, by simp [hz]⟩
  · by_cases ha : i.availability_zone.back.isAlpha = true
    · exact Or.inl ⟨hz, ha, by simp [hz, ha]⟩
    · exact Or.inr ⟨Or.inr (by simpa using ha), by simp [hz, ha]⟩

/-- A found region-scan result either drops the trailing alphabetic suffix
of the availability zone, or returns one of the scanned query regions
verbatim. -/
theorem scanRegions_found_region {backend : Backend}
    {server_name account_name account_id : String} {regions : List String}
    {n r : String} {i : Instance}
    (h : scanRegions backend server_name account_name account_id regions =
      RegionScanResult.found n r i) :
    (i.availability_zone ≠ "" ∧ i.availability_zone.back.isAlpha = true ∧
       r = i.availability_zone.dropRight 1) ∨
    ((i.availability_zone = "" ∨ i.availability_zone.back.isAlpha = false) ∧
       r ∈ regions) := by
  induction regions with
  | nil => simp [scanRegions] at h
  | cons region rest ih =>
    cases hb : backend account_id region with
    | assumeFailure => simp [scanRegions, hb] at h
    | unexpectedFailure => simp [scanRegions, hb] at h
    | queryFailure code =>
      simp only [scanRegions, hb] at h
      rcases ih h with hL | ⟨hz, hr⟩
      · exact Or.inl hL
      · exact Or.inr ⟨hz, List.mem_cons_of_mem _ hr⟩
    | data reservations =>
      simp only [scanRegions, hb] at h
      cases hd : (describeMatches server_name reservations).head? with
      | none =>
        simp only [hd] at h
        rcases ih h with hL | ⟨hz, hr⟩
        · exact Or.inl hL
        · exact Or.inr ⟨hz, List.mem_cons_of_mem _ hr⟩
      | some inst =>
        simp only [hd] at h
        simp only [RegionScanResult.found.injEq] at h
        obtain ⟨-, h2, h3⟩ := h
        rw [← h2, ← h3]
        rcases normalizeRegion_cases region inst with ⟨hz, ha, hr⟩ | ⟨hz, hr⟩
        · exact Or.inl ⟨hz, ha, hr⟩
        · exact Or.inr ⟨hz, by rw [hr]; exact List.mem_cons_self _ _⟩

/-- A found search result arises from a found region scan of one of the
configured accounts. -/
theorem findLoop_found {backend : Backend} {server_name : String}
    {valid_regions : List String} {accounts : List (String × String)}
    {n r : String} {i : Instance}
    (h : findLoop backend server_name valid_regions accounts = some (n, r, i)) :
    ∃ account_name account_id, (account_name, account_id) ∈ accounts ∧
      scanRegions backend server_name account_name account_id valid_regions =
        RegionScanResult.found n r i := by
  induction accounts with
  | nil => simp [findLoop] at h
  | cons a rest ih =>
    obtain ⟨an, aid⟩ := a
    cases hs : scanRegions backend server_name an aid valid_regions with
    | found n' r' i' =>
      simp only [findLoop, hs, Option.some.injEq, Prod.mk.injEq] at h
      obtain ⟨rfl, rfl, rfl⟩ := h
      exact ⟨an, aid, List.mem_cons_self _ _, hs⟩
    | aborted =>
      simp only [findLoop, hs] at h
      obtain ⟨an', aid', hm, hsc⟩ := ih h
      exact ⟨an', aid', List.mem_cons_of_mem _ hm, hsc⟩
    | exhausted =>
      simp only [findLoop, hs] at h
      obtain ⟨an', aid', hm, hsc⟩ := ih h
      exact ⟨an', aid', List.mem_cons_of_mem _ hm, hsc⟩

/-- Under a backend whose every name-tag match is terminated, no region
scan finds anything. -/
theorem scanRegions_none_of_terminated {backend : Backend}
    {server_name account_name account_id : String}
    (H : ∀ account_id' region reservations,
      backend account_id' region = RegionOutcome.data reservations →
      ∀ j ∈ reservations.flatten, j.tags.contains ("Name", server_name) = true →
        j.state = "terminated")
    (regions : List String) :
    scanRegions backend server_name account_name account_id regions =
        RegionScanResult.aborted ∨
      scanRegions backend server_name account_name account_id regions =
        RegionScanResult.exhausted := by
  induction regions with
  | nil => right; rfl
  | cons region rest ih =>
    cases hb : backend account_id region with
    | assumeFailure => left; simp [scanRegions, hb]
    | unexpectedFailure => left; simp [scanRegions, hb]
    | queryFailure code => simpa [scanRegions, hb] using ih
    | data reservations =>
      have hnil : describeMatches server_name reservations = [] :=
        describeMatches_eq_nil (fun j hj =>
          matchesFilters_eq_false_of_terminated
            (H account_id region reservations hb j hj))
      simpa [scanRegions, hb, hnil] using ih

/-- Claim C1 counterexample: for an instance whose availability-zone
string is non-empty but ends in a non-alphabetic character, the resolver
returns the query region verbatim even though the resource carries
availability-zone data, and the returned region is not the
availability-zone string with its last character removed. -/
theorem normalized_region_claim_false :
    find_instance_by_name "web-01" [("prod", "111111111111")] ["us-east-1"] backendOdd =
      some ("prod", "us-east-1", instOdd) ∧
    instOdd.availability_zone ≠ "" ∧
    "us-east-1" ≠ instOdd.availability_zone.dropRight 1 := by decide

/-- Claim C1 (amended): for every resolved instance, when the resource's
availability-zone string is non-empty and ends in an alphabetic character
the returned normalized region is that string with its final character
removed; otherwise — when the resource carries no availability-zone data
or the zone's final character is not alphabetic — the region used for the
query (one of the configured regions) is returned verbatim. -/
theorem normalized_region_cases (backend : Backend) (server_name : String)
    (accounts : List (String × String)) (valid_regions : List String)
    (n r : String) (i : Instance)
    (h : find_instance_by_name server_name accounts valid_regions backend = some (n, r, i)) :
    (i.availability_zone ≠ "" ∧ i.availability_zone.back.isAlpha = true ∧
       r = i.availability_zone.dropRight 1) ∨
    ((i.availability_zone = "" ∨ i.availability_zone.back.isAlpha = false) ∧
       r ∈ valid_regions) := by
  unfold find_instance_by_name at h
  obtain ⟨an, aid, -, hs⟩ := findLoop_found h
  exact scanRegions_found_region hs

/-- Witness for the amended claim C1 at the spec's positive scenario. -/
theorem normalized_region_cases_witness :
    (instWeb.availability_zone ≠ "" ∧ instWeb.availability_zone.back.isAlpha = true ∧
       "eu-west-1" = instWeb.availability_zone.dropRight 1) ∨
    ((instWeb.availability_zone = "" ∨ instWeb.availability_zone.back.isAlpha = false) ∧
       "eu-west-1" ∈ ["us-east-1", "eu-west-1"]) :=
  normalized_region_cases backendFound "web-01"
    [("prod", "111111111111"), ("dev", "222222222222")] ["us-east-1", "eu-west-1"]
    "dev" "eu-west-1" instWeb (by decide)

/-- Claim C2: a query failure in one region continues the scan with the
next region of the same account; a delegation failure aborts the
account's region loop; and an aborted account scan continues the search
with the remaining accounts, examining them in full. -/
theorem resolver_recovers_failures (backend : Backend)
    (server_name account_name account_id code region : String)
    (rs valid_regions : List String) (accounts : List (String × String)) :
    (backend account_id region = RegionOutcome.queryFailure code →
       scanRegions backend server_name account_name account_id (region :: rs) =
         scanRegions backend server_name account_name account_id rs) ∧
    (backend account_id region = RegionOutcome.assumeFailure →
       scanRegions backend server_name account_name account_id (region :: rs) =
         RegionScanResult.aborted) ∧
    (scanRegions backend server_name account_name account_id valid_regions =
        RegionScanResult.aborted →
      findLoop backend server_name valid_regions ((account_name, account_id) :: accounts) =
        findLoop backend server_name valid_regions accounts) := by
  refine ⟨fun h => ?_, fun h => ?_, fun h => ?_⟩
  · simp [scanRegions, h]
  · simp [scanRegions, h]
  · simp [findLoop, h]

/-- Witness for claim C2 on a concrete backend whose first account cannot
be delegated into and whose region us-bad-1 fails each query. -/
theorem resolver_recovers_failures_witness :
    (scanRegions backendC2 "web-01" "dev" "222222222222" ["us-bad-1", "eu-west-1"] =
       scanRegions backendC2 "web-01" "dev" "222222222222" ["eu-west-1"]) ∧
    (scanRegions backendC2 "web-01" "prod" "111111111111" ["us-bad-1", "eu-west-1"] =
       RegionScanResult.aborted) ∧
    (findLoop backendC2 "web-01" ["us-bad-1", "eu-west-1"]
        [("prod", "111111111111"), ("dev", "222222222222")] =
      findLoop backendC2 "web-01" ["us-bad-1", "eu-west-1"] [("dev", "222222222222")]) :=
  ⟨(resolver_recovers_failures backendC2 "web-01" "dev" "222222222222" "Boom" "us-bad-1"
      ["eu-west-1"] ["us-bad-1", "eu-west-1"] []).1 (by decide),
   (resolver_recovers_failures backendC2 "web-01" "prod" "111111111111" "Boom" "us-bad-1"
      ["eu-west-1"] ["us-bad-1", "eu-west-1"] []).2.1 (by decide),
   (resolver_recovers_failures backendC2 "web-01" "prod" "111111111111" "Boom" "us-bad-1"
      ["eu-west-1"] ["us-bad-1", "eu-west-1"] [("dev", "222222222222")]).2.2 (by decide)⟩

/-- Claim C5: every resolved instance has a matching name tag and one of
the five active lifecycle states, hence is never terminated; and a search
whose every name-tag match is terminated returns not-found. -/
theorem resolver_filters_lifecycle_states (backend : Backend) (server_name : String)
    (accounts : List (String × String)) (valid_regions : List String)
    (n r : String) (i : Instance) :
    (find_instance_by_name server_name accounts valid_regions backend = some (n, r, i) →
       i.tags.contains ("Name", server_name) = true ∧
       activeStates.contains i.state = true ∧ i.state ≠ "terminated") ∧
    ((∀ account_id region reservations,
        backend account_id region = RegionOutcome.data reservations →
        ∀ j ∈ reservations.flatten, j.tags.contains ("Name", server_name) = true →
          j.state = "terminated") →
      find_instance_by_name server_name accounts valid_regions backend = none) := by
  constructor
  · intro h
    unfold find_instance_by_name at h
    obtain ⟨an, aid, -, hs⟩ := findLoop_found h
    have hm := scanRegions_found_matches hs
    unfold matchesFilters at hm
    rw [Bool.and_eq_true] at hm
    exact ⟨hm.1, hm.2, ne_terminated_of_active hm.2⟩
  · intro H
    unfold find_instance_by_name
    induction accounts with
    | nil => rfl
    | cons a rest ih =>
      obtain ⟨an, aid⟩ := a
      rcases @scanRegions_none_of_terminated backend server_name an aid H valid_regions
        with hs | hs
      · simpa [findLoop, hs] using ih
      · simpa [findLoop, hs] using ih

/-- Witness for claim C5: the found instance of the positive scenario is
active, and the terminated-only scenario returns not-found. -/
theorem resolver_filters_lifecycle_states_witness :
    (instWeb.tags.contains ("Name", "web-01") = true ∧
       activeStates.contains instWeb.state = true ∧ instWeb.state ≠ "terminated") ∧
    find_instance_by_name "web-01" [("prod", "111111111111"), ("dev", "222222222222")]
        ["us-east-1", "eu-west-1"] backendTerm = none :=
  ⟨(resolver_filters_lifecycle_states backendFound "web-01"
      [("prod", "111111111111"), ("dev", "222222222222")] ["us-east-1", "eu-west-1"]
      "dev" "eu-west-1" instWeb).1 (by decide),
   (resolver_filters_lifecycle_states backendTerm "web-01"
      [("prod", "111111111111"), ("dev", "222222222222")] ["us-east-1", "eu-west-1"]
      "dev" "eu-west-1" instWeb).2 (by
        intro a r rs h j hj hn
        simp only [backendTerm, RegionOutcome.data.injEq] at h
        subst h
        simp at hj
        subst hj
        rfl)⟩

/-- Stripping the client handle from the with-session region scan yields
the plain region scan. -/
theorem stripClient_scanRegionsWs (backend : Backend)
    (server_name account_name account_id : String) (regions : List String) :
    stripClient (scanRegionsWs backend server_name account_name account_id regions) =
      scanRegions backend server_name account_name account_id regions := by
  induction regions with
  | nil => rfl
  | cons region rest ih =>
    cases hb : backend account_id region with
    | assumeFailure => simp [scanRegionsWs, scanRegions, hb, stripClient]
    | unexpectedFailure => simp [scanRegionsWs, scanRegions, hb, stripClient]
    | queryFailure code => simpa [scanRegionsWs, scanRegions, hb] using ih
    | data reservations =>
      cases hd : (describeMatches server_name reservations).head? with
      | some inst => simp [scanRegionsWs, scanRegions, hb, hd, stripClient]
      | none => simpa [scanRegionsWs, scanRegions, hb, hd] using ih

/-- Claim C7: the with-handle resolver implements the identical search as
the plain resolver — projecting away the client handle of its result gives
exactly the plain resolver's result (so they agree on not-found, and on
the account/region/instance of every match). -/
theorem find_with_session_refines_find_by_name (server_name : String)
    (accounts : List (String × String)) (valid_regions : List String)
    (backend : Backend) :
    (find_instance_with_session server_name accounts valid_regions backend).map
        (fun x => (x.1, x.2.1, x.2.2.1)) =
      find_instance_by_name server_name accounts valid_regions backend := by
  unfold find_instance_with_session find_instance_by_name
  induction accounts with
  | nil => rfl
  | cons a rest ih =>
    obtain ⟨an, aid⟩ := a
    have hstrip := stripClient_scanRegionsWs backend server_name an aid valid_regions
    cases hws : scanRegionsWs backend server_name an aid valid_regions with
    | found n r i c =>
      rw [hws] at hstrip
      simp only [stripClient] at hstrip
      simp [findLoopWs, findLoop, hws, ← hstrip]
    | aborted =>
      rw [hws] at hstrip
      simp only [stripClient] at hstrip
      simp only [findLoopWs, findLoop, hws, ← hstrip]
      exact ih
    | exhausted =>
      rw [hws] at hstrip
      simp only [stripClient] at hstrip
      simp only [findLoopWs, findLoop, hws, ← hstrip]
      exact ih

/-- The state-passing region scan returns the backend unchanged and the
same result as the plain region scan. -/
theorem scanRegionsSt_eq (server_name account_name account_id : String)
    (regions : List String) (st : Backend) :
    scanRegionsSt server_name account_name account_id regions st =
      (scanRegions st server_name account_name account_id regions, st) := by
  induction regions with
  | nil => rfl
  | cons region rest ih =>
    cases hb : st account_id region with
    | assumeFailure => simp [scanRegionsSt, scanRegions, readRegion, hb]
    | unexpectedFailure => simp [scanRegionsSt, scanRegions, readRegion, hb]
    | queryFailure code => simpa [scanRegionsSt, scanRegions, readRegion, hb] using ih
    | data reservations =>
      cases hd : (describeMatches server_name reservations).head? with
      | some inst => simp [scanRegionsSt, scanRegions, readRegion, hb, hd]
      | none => simpa [scanRegionsSt, scanRegions, readRegion, hb, hd] using ih

/-- The state-passing account loop returns the backend unchanged and the
same result as the plain account loop. -/
theorem findLoopSt_eq (server_name : String) (valid_regions : List String)
    (accounts : List (String × String)) (st : Backend) :
    findLoopSt server_name valid_regions accounts st =
      (findLoop st server_name valid_regions accounts, st) := by
  induction accounts with
  | nil => rfl
  | cons a rest ih =>
    obtain ⟨an, aid⟩ := a
    cases hs : scanRegions st server_name an aid valid_regions with
    | found n r i => simp [findLoopSt, findLoop, scanRegionsSt_eq, hs]
    | aborted => simp [findLoopSt, findLoop, scanRegionsSt_eq, hs, ih]
    | exhausted => simp [findLoopSt, findLoop, scanRegionsSt_eq, hs, ih]

/-- Claim C8: the resolver mutates no backend state (the state-passing
resolver returns the backend unchanged and its result agrees with the pure
resolver), and calling it twice in succession with unchanged backend state
returns the identical result both times. -/
theorem resolver_idempotent_no_backend_mutation (server_name : String)
    (accounts : List (String × String)) (valid_regions : List String)
    (st : Backend) :
    (find_instance_by_name_st server_name accounts valid_regions st).2 = st ∧
    (find_instance_by_name_st server_name accounts valid_regions st).1 =
      find_instance_by_name server_name accounts valid_regions st ∧
    (find_instance_by_name_st server_name accounts valid_regions
        ((find_instance_by_name_st server_name accounts valid_regions st).2)).1 =
      (find_instance_by_name_st server_name accounts valid_regions st).1 := by
  simp [find_instance_by_name_st, find_instance_by_name, findLoopSt_eq]

/-- Looking up a key just inserted into the cache yields the inserted
entry. -/
theorem lookup_cacheInsert (k : String) (v : Session × Nat) (c : Cache) :
    List.lookup k (cacheInsert k v c) = some v := by
  simp [cacheInsert, List.lookup]

/-- Case analysis of the exchange-outcome handling: it either returns a
session (cached when caching is enabled) or an error that leaves the cache
unchanged; both paths count one exchange invocation. -/
theorem wrapExchangeOutcome_cases (mgr : AssumeRoleSessionManager) (now : Nat)
    (cache : Cache) (account_id region_name effective_role_name : String)
    (o : ExchangeOutcome) :
    (∃ s, wrapExchangeOutcome mgr now cache account_id region_name effective_role_name o =
      { result := .ok s
        cache :=
          if mgr.enable_caching then
            cacheInsert (get_cache_key account_id region_name effective_role_name)
              (s, now) cache
          else cache
        exchangeCalls := 1 }) ∨
    (∃ e, wrapExchangeOutcome mgr now cache account_id region_name effective_role_name o =
      { result := .error e, cache := cache, exchangeCalls := 1 }) := by
  cases o with
  | ok credentials =>
    left
    refine ⟨{ aws_access_key_id := credentials.accessKeyId
              aws_secret_access_key := credentials.secretAccessKey
              aws_session_token := credentials.sessionToken }, ?_⟩
    unfold wrapExchangeOutcome
    by_cases hc : mgr.enable_caching
    · simp [hc]
    · simp [hc]
  | clientError code message => right; exact ⟨_, rfl⟩
  | noCredentials => right; exact ⟨_, rfl⟩
  | otherError message => right; exact ⟨_, rfl⟩

/-- Case analysis of the whole exchange step of assume_role. -/
theorem assume_role_exchange_cases (mgr : AssumeRoleSessionManager)
    (exchange : ExchangeRequest → ExchangeOutcome) (nonce : String) (now : Nat)
    (cache : Cache) (account_id region_name effective_role_name : String) :
    (∃ s, assume_role_exchange mgr exchange nonce now cache account_id region_name
        effective_role_name =
      { result := .ok s
        cache :=
          if mgr.enable_caching then
            cacheInsert (get_cache_key account_id region_name effective_role_name)
              (s, now) cache
          else cache
        exchangeCalls := 1 }) ∨
    (∃ e, assume_role_exchange mgr exchange nonce now cache account_id region_name
        effective_role_name =
      { result := .error e, cache := cache, exchangeCalls := 1 }) := by
  unfold assume_role_exchange
  exact wrapExchangeOutcome_cases mgr now cache account_id region_name effective_role_name _

/-- On a validation failure, assume_role returns the wrapped error with
the cache untouched and no exchange. -/
theorem assume_role_invalid (mgr : AssumeRoleSessionManager)
    (exchange : ExchangeRequest → ExchangeOutcome) (nonce : String) (now : Nat)
    (cache : Cache) (account_id region_name : String) (role_name : Option String)
    (m : String)
    (hv : validate_inputs account_id region_name
      (effectiveRoleName role_name mgr.default_role_name) = some m) :
    ∃ e, assume_role mgr exchange nonce now cache account_id region_name role_name =
      { result := .error e, cache := cache, exchangeCalls := 0 } := by
  refine ⟨{ message := s!"Invalid input parameters: {m}"
            account_id := some account_id
            role_name := some (effectiveRoleName role_name mgr.default_role_name)
            region := some region_name }, ?_⟩
  simp [assume_role, hv]

/-- On a cache hit (caching enabled, valid inputs, key present), the
cached session is returned with no exchange and no cache change. -/
theorem assume_role_cache_hit (mgr : AssumeRoleSessionManager)
    (exchange : ExchangeRequest → ExchangeOutcome) (nonce : String) (now : Nat)
    (cache : Cache) (account_id region_name : String) (role_name : Option String)
    (entry : Session × Nat)
    (hc : mgr.enable_caching = true)
    (hv : validate_inputs account_id region_name
      (effectiveRoleName role_name mgr.default_role_name) = none)
    (hl : List.lookup (get_cache_key account_id region_name
      (effectiveRoleName role_name mgr.default_role_name)) cache = some entry) :
    assume_role mgr exchange nonce now cache account_id region_name role_name =
      { result := .ok entry.1, cache := cache, exchangeCalls := 0 } := by
  simp [assume_role, hv, hc, hl]

/-- On a cache miss (or with caching disabled), assume_role performs the
exchange step. -/
theorem assume_role_cache_miss (mgr : AssumeRoleSessionManager)
    (exchange : ExchangeRequest → ExchangeOutcome) (nonce : String) (now : Nat)
    (cache : Cache) (account_id region_name : String) (role_name : Option String)
    (hv : validate_inputs account_id region_name
      (effectiveRoleName role_name mgr.default_role_name) = none)
    (hmiss : mgr.enable_caching = false ∨
      List.lookup (get_cache_key account_id region_name
        (effectiveRoleName role_name mgr.default_role_name)) cache = none) :
    assume_role mgr exchange nonce now cache account_id region_name role_name =
      assume_role_exchange mgr exchange nonce now cache account_id region_name
        (effectiveRoleName role_name mgr.default_role_name) := by
  rcases hmiss with hc | hl
  · simp [assume_role, hv, hc]
  · by_cases hc : mgr.enable_caching
    · simp [assume_role, hv, hc, hl]
    · simp [assume_role, hv, hc]

/-- An account id failing the 12-digit pattern fails validation. -/
theorem validate_inputs_isSome_of_bad_account {account_id region_name role_name : String}
    (h : accountIdPattern account_id = false) :
    ∃ m, validate_inputs account_id region_name role_name = some m := by
  by_cases he : account_id = ""
  · refine ⟨s!"account_id must be a non-empty string, got: {account_id}", ?_⟩
    simp [validate_inputs, he]
  · refine ⟨s!"account_id must be a 12-digit string, got: {account_id}", ?_⟩
    simp [validate_inputs, he, h]

/-- Claim C3 counterexample: the account id "123456789012" followed by a
newline is not exactly 12 ASCII digits (it has 13 characters), yet the
source's pattern accepts it — Python's $ matches just before one trailing
newline — so assume_role raises no error and invokes the credential
exchange once, not zero times. -/
theorem account_id_validation_claim_false :
    ¬("123456789012\n".length = 12) ∧
    (assume_role mgrDefault exchangeOk "n" 0 [] "123456789012\n" "us-east-1"
      none).exchangeCalls = 1 ∧
    isError (assume_role mgrDefault exchangeOk "n" 0 [] "123456789012\n" "us-east-1"
      none).result = false := by decide

/-- Claim C3 (amended): for every account_id rejected by the source's
account-id pattern — 12 Unicode decimal digits optionally followed by one
trailing newline — assume_role raises a typed error carrying the offending
account/role/region context, with the underlying credential exchange
invoked zero times and the cache untouched. (Account ids that match the
pattern without being exactly 12 ASCII digits pass validation and reach
the exchange.) -/
theorem assume_role_invalid_account_id_no_exchange (mgr : AssumeRoleSessionManager)
    (exchange : ExchangeRequest → ExchangeOutcome) (nonce : String) (now : Nat)
    (cache : Cache) (account_id region_name : String) (role_name : Option String)
    (h : accountIdPattern account_id = false) :
    (assume_role mgr exchange nonce now cache account_id region_name
      role_name).exchangeCalls = 0 ∧
    (assume_role mgr exchange nonce now cache account_id region_name role_name).cache =
      cache ∧
    errorContext (assume_role mgr exchange nonce now cache account_id region_name
        role_name).result =
      some (some account_id, some (effectiveRoleName role_name mgr.default_role_name),
        some region_name) := by
  obtain ⟨m, hv⟩ := @validate_inputs_isSome_of_bad_account account_id region_name
    (effectiveRoleName role_name mgr.default_role_name) h
  simp [assume_role, hv, errorContext]

/-- Witness for claim C3 at a malformed account id. -/
theorem assume_role_invalid_account_id_no_exchange_witness :
    (assume_role mgrDefault exchangeDeny "n" 0 [] "imposter" "us-east-1"
      none).exchangeCalls = 0 ∧
    (assume_role mgrDefault exchangeDeny "n" 0 [] "imposter" "us-east-1" none).cache = [] ∧
    errorContext (assume_role mgrDefault exchangeDeny "n" 0 [] "imposter" "us-east-1"
        none).result =
      some (some "imposter", some "aws-automation-tamer-admin", some "us-east-1") :=
  assume_role_invalid_account_id_no_exchange mgrDefault exchangeDeny "n" 0 [] "imposter"
    "us-east-1" none (by decide)

/-- Claim C4 counterexample: with caching enabled, the cache entry created
at clock 0 under a 3600-second session duration is still returned by
assume_role at clock 1000000, far past its credential validity window —
the hit path performs no expiry check. -/
theorem cache_hit_past_window :
    sessionOf (assume_role mgrC exchangeDeny "n" 1000000 cacheC4
        "111111111111" "us-east-1" none).result = some sessionC4 ∧
    0 + mgrC.session_duration < 1000000 := by decide

/-- Claim C4 (amended): with caching enabled and valid inputs, assume_role
returns the cached entry for the key whenever one exists, with no network
call and no cache change — regardless of the current clock value and of
when the entry was created, since the cache records no expiry and the hit
path performs no expiry check. -/
theorem cache_hit_no_expiry_check (mgr : AssumeRoleSessionManager)
    (exchange : ExchangeRequest → ExchangeOutcome) (nonce : String) (now created : Nat)
    (cache : Cache) (account_id region_name : String) (role_name : Option String)
    (s : Session)
    (hc : mgr.enable_caching = true)
    (hv : validate_inputs account_id region_name
      (effectiveRoleName role_name mgr.default_role_name) = none)
    (hl : List.lookup (get_cache_key account_id region_name
        (effectiveRoleName role_name mgr.default_role_name)) cache = some (s, created)) :
    sessionOf (assume_role mgr exchange nonce now cache account_id region_name
        role_name).result = some s ∧
    (assume_role mgr exchange nonce now cache account_id region_name
      role_name).exchangeCalls = 0 ∧
    (assume_role mgr exchange nonce now cache account_id region_name role_name).cache =
      cache := by
  have e1 := assume_role_cache_hit mgr exchange nonce now cache account_id region_name
    role_name (s, created) hc hv hl
  rw [e1]
  exact ⟨rfl, rfl, rfl⟩

/-- Witness for the amended claim C4: the entry created at clock 0 is
returned unchanged at clock 999999999. -/
theorem cache_hit_no_expiry_check_witness :
    sessionOf (assume_role mgrC exchangeDeny "n" 999999999 cacheC4
        "111111111111" "us-east-1" none).result = some sessionC4 ∧
    (assume_role mgrC exchangeDeny "n" 999999999 cacheC4 "111111111111" "us-east-1"
      none).exchangeCalls = 0 ∧
    (assume_role mgrC exchangeDeny "n" 999999999 cacheC4 "111111111111" "us-east-1"
      none).cache = cacheC4 :=
  cache_hit_no_expiry_check mgrC exchangeDeny "n" 999999999 0 cacheC4 "111111111111"
    "us-east-1" none sessionC4 (by decide) (by decide) (by decide)

/-- Claim C6: with caching enabled and a first assume_role call that
returns a session, a second call with identical arguments invokes the
exchange zero further times and returns that same session; the two calls
together invoke the exchange at most once. -/
theorem assume_role_caching_single_exchange (mgr : AssumeRoleSessionManager)
    (exchange : ExchangeRequest → ExchangeOutcome) (nonce nonce2 : String)
    (now now2 : Nat) (cache : Cache) (account_id region_name : String)
    (role_name : Option String) (s : Session)
    (hc : mgr.enable_caching = true)
    (h1 : sessionOf (assume_role mgr exchange nonce now cache
      account_id region_name role_name).result = some s) :
    sessionOf (assume_role mgr exchange nonce2 now2
        (assume_role mgr exchange nonce now cache account_id region_name role_name).cache
        account_id region_name role_name).result = some s ∧
    (assume_role mgr exchange nonce2 now2
        (assume_role mgr exchange nonce now cache account_id region_name role_name).cache
        account_id region_name role_name).exchangeCalls = 0 ∧
    (assume_role mgr exchange nonce now cache account_id region_name
        role_name).exchangeCalls +
      (assume_role mgr exchange nonce2 now2
        (assume_role mgr exchange nonce now cache account_id region_name role_name).cache
        account_id region_name role_name).exchangeCalls ≤ 1 := by
  cases hv : validate_inputs account_id region_name
      (effectiveRoleName role_name mgr.default_role_name) with
  | some m =>
    obtain ⟨e, he⟩ := assume_role_invalid mgr exchange nonce now cache account_id
      region_name role_name m hv
    rw [he] at h1
    simp [sessionOf] at h1
  | none =>
    cases hl : List.lookup (get_cache_key account_id region_name
        (effectiveRoleName role_name mgr.default_role_name)) cache with
    | some entry =>
      have e1 := assume_role_cache_hit mgr exchange nonce now cache account_id region_name
        role_name entry hc hv hl
      rw [e1] at h1
      simp only [sessionOf, Option.some.injEq] at h1
      rw [e1]
      have e2 := assume_role_cache_hit mgr exchange nonce2 now2 cache account_id
        region_name role_name entry hc hv hl
      rw [e2]
      simp [sessionOf, h1]
    | none =>
      have e1 := assume_role_cache_miss mgr exchange nonce now cache account_id
        region_name role_name hv (Or.inr hl)
      rw [e1] at h1 ⊢
      rcases assume_role_exchange_cases mgr exchange nonce now cache account_id
          region_name (effectiveRoleName role_name mgr.default_role_name) with
        ⟨s0, hw⟩ | ⟨e, hw⟩
      · rw [hw] at h1 ⊢
        simp only [sessionOf, Option.some.injEq] at h1
        subst h1
        simp only [hc, if_true]
        have e2 := assume_role_cache_hit mgr exchange nonce2 now2
          (cacheInsert (get_cache_key account_id region_name
            (effectiveRoleName role_name mgr.default_role_name)) (s0, now) cache)
          account_id region_name role_name (s0, now) hc hv (lookup_cacheInsert _ _ _)
        rw [e2]
        exact ⟨rfl, rfl, by simp⟩
      · rw [hw] at h1
        simp [sessionOf] at h1

/-- Witness for claim C6: two consecutive calls with identical arguments
against a granting exchange backend. -/
theorem assume_role_caching_single_exchange_witness :
    sessionOf (assume_role mgrC exchangeOk "n2" 5
        (assume_role mgrC exchangeOk "n1" 3 [] "222222222222" "eu-west-1" none).cache
        "222222222222" "eu-west-1" none).result = some sessionOk ∧
    (assume_role mgrC exchangeOk "n2" 5
        (assume_role mgrC exchangeOk "n1" 3 [] "222222222222" "eu-west-1" none).cache
        "222222222222" "eu-west-1" none).exchangeCalls = 0 ∧
    (assume_role mgrC exchangeOk "n1" 3 [] "222222222222" "eu-west-1"
        none).exchangeCalls +
      (assume_role mgrC exchangeOk "n2" 5
        (assume_role mgrC exchangeOk "n1" 3 [] "222222222222" "eu-west-1" none).cache
        "222222222222" "eu-west-1" none).exchangeCalls ≤ 1 :=
  assume_role_caching_single_exchange mgrC exchangeOk "n1" "n2" 3 5 [] "222222222222"
    "eu-west-1" none sessionOk (by decide) (by decide)

/-- Claim C9: passing the empty string as the role name behaves
identically to omitting the argument — the falsy empty string selects the
manager's default role name before validation, so no role-name validation
error is triggered and the default is used for the exchange. -/
theorem assume_role_empty_role_name_uses_default (mgr : AssumeRoleSessionManager)
    (exchange : ExchangeRequest → ExchangeOutcome) (nonce : String) (now : Nat)
    (cache : Cache) (account_id region_name : String) :
    assume_role mgr exchange nonce now cache account_id region_name (some "") =
      assume_role mgr exchange nonce now cache account_id region_name none := by
  simp [assume_role, effectiveRoleName]

/-- Claim C10: whenever assume_role raises, the cache is unchanged; and
whenever the cache changes, the call succeeded and the change is exactly
the insertion of the freshly exchanged session under the call's key. -/
theorem assume_role_error_leaves_cache_unchanged (mgr : AssumeRoleSessionManager)
    (exchange : ExchangeRequest → ExchangeOutcome) (nonce : String) (now : Nat)
    (cache : Cache) (account_id region_name : String) (role_name : Option String) :
    (isError (assume_role mgr exchange nonce now cache account_id region_name
        role_name).result = true →
      (assume_role mgr exchange nonce now cache account_id region_name role_name).cache =
        cache) ∧
    ((assume_role mgr exchange nonce now cache account_id region_name role_name).cache ≠
        cache →
      ∃ s, sessionOf (assume_role mgr exchange nonce now cache account_id region_name
          role_name).result = some s ∧
        (assume_role mgr exchange nonce now cache account_id region_name role_name).cache =
          cacheInsert (get_cache_key account_id region_name
            (effectiveRoleName role_name mgr.default_role_name)) (s, now) cache) := by
  cases hv : validate_inputs account_id region_name
      (effectiveRoleName role_name mgr.default_role_name) with
  | some m =>
    obtain ⟨e, he⟩ := assume_role_invalid mgr exchange nonce now cache account_id
      region_name role_name m hv
    rw [he]
    exact ⟨fun _ => rfl, fun hne => absurd rfl hne⟩
  | none =>
    by_cases hc : mgr.enable_caching
    · cases hl : List.lookup (get_cache_key account_id region_name
          (effectiveRoleName role_name mgr.default_role_name)) cache with
      | some entry =>
        have e1 := assume_role_cache_hit mgr exchange nonce now cache account_id
          region_name role_name entry hc hv hl
        rw [e1]
        exact ⟨fun _ => rfl, fun hne => absurd rfl hne⟩
      | none =>
        have e1 := assume_role_cache_miss mgr exchange nonce now cache account_id
          region_name role_name hv (Or.inr hl)
        rw [e1]
        rcases assume_role_exchange_cases mgr exchange nonce now cache account_id
            region_name (effectiveRoleName role_name mgr.default_role_name) with
          ⟨s0, hw⟩ | ⟨e, hw⟩
        · rw [hw]
          refine ⟨fun h => by simp [isError] at h, fun _ => ⟨s0, rfl, ?_⟩⟩
          simp [hc]
        · rw [hw]
          exact ⟨fun _ => rfl, fun hne => absurd rfl hne⟩
    · rw [Bool.not_eq_true] at hc
      have e1 := assume_role_cache_miss mgr exchange nonce now cache account_id
        region_name role_name hv (Or.inl hc)
      rw [e1]
      rcases assume_role_exchange_cases mgr exchange nonce now cache account_id
          region_name (effectiveRoleName role_name mgr.default_role_name) with
        ⟨s0, hw⟩ | ⟨e, hw⟩
      · rw [hw]
        refine ⟨fun h => by simp [isError] at h, fun hne => absurd ?_ hne⟩
        simp [hc]
      · rw [hw]
        exact ⟨fun _ => rfl, fun hne => absurd rfl hne⟩

/-- Witness for claim C10: a denied exchange leaves the cache unchanged. -/
theorem assume_role_error_leaves_cache_unchanged_witness :
    (assume_role mgrDefault exchangeDeny "n" 0 cacheC4 "222222222222" "eu-west-1"
      none).cache = cacheC4 :=
  (assume_role_error_leaves_cache_unchanged mgrDefault exchangeDeny "n" 0 cacheC4
    "222222222222" "eu-west-1" none).1 (by decide)

end Aws
